import Mathlib

/-!
Shallow embedding of the version-tracked resume-editing workflow of
`src/frontend/src/Editor.js` (repository merit-ai).

The React component keeps its data in `useState` hooks; here that mutable
state is an explicit `EditorState` record and each handler is a pure state
transformer.  External calls (the edit service, the PDF renderer, the
durable store) are asynchronous request/response operations in the source;
each transformer therefore takes the outcome of its one outbound call as an
explicit argument, and the state records the observable effects (outbound
requests, save invocations, preview invocations) as event lists so that
theorems can speak about "exactly one call with exactly these arguments".
-/

/-- A version-history entry, `{ id, code }` in `Editor.js` (`codeHistory`). -/
structure VersionEntry where
  id : Nat
  code : String
deriving DecidableEq

/-- Chat roles: the source uses the string literals "user" and "ai". -/
inductive Role where
  | user
  | ai
deriving DecidableEq

/-- A chat message as built in `Editor.js`: `{ role, content }` for user
messages and failure replies (no `codeVersionId` field, modelled as the
default `none`), `{ role, content, codeVersionId }` for successful AI
replies. -/
structure ChatMessage where
  role : Role
  content : String
  codeVersionId : Option Nat := none
deriving DecidableEq

/-- The JSON body of one `POST /modify-resume` call (Editor.js lines
328-333). -/
structure ModifyRequest where
  html_code : String
  prompt : String
  history : List (Role × String)
  extracted_data : String
deriving DecidableEq

/-- Outcome of the one outbound `/modify-resume` call of a turn: an axios
transport error (the `catch` branch), a response with `success: false`
(the `else` branch), or a successful response carrying `html_code` and
`reply_text`. -/
inductive ModifyOutcome where
  | transportError
  | serviceRejected
  | success (html_code : String) (reply_text : String)
deriving DecidableEq

/-- The `useState` hooks of the `Editor` component that the versioning
workflow reads or writes, plus event lists recording the observable
outbound effects. -/
structure EditorState where
  step : Nat
  htmlCode : String
  extractedContext : String
  resumeTitle : String
  chatMessages : List ChatMessage
  userPrompt : String
  codeHistory : List VersionEntry
  currentCodeVersionId : Nat
  isModifying : Bool
  /-- arguments of each `saveResume(newHtml, newVersion)` invocation -/
  saveCalls : List (String × Nat)
  /-- argument of each `updatePdfPreview(codeToRender)` invocation -/
  previewCalls : List String
  /-- each outbound `/modify-resume` request body -/
  requests : List ModifyRequest
deriving DecidableEq

/-- `codeHistory.find(v => v.id === currentCodeVersionId)?.code || htmlCode`
(Editor.js line 325): the snapshot of the entry the current pointer
references, falling back to `htmlCode` when the entry is missing or its
code is the empty string (JavaScript `||` falsiness). -/
def currentCodeOf (st : EditorState) : String :=
  match st.codeHistory.find? (fun v => v.id == st.currentCodeVersionId) with
  | some v => if v.code = "" then st.htmlCode else v.code
  | none => st.htmlCode

/-- JavaScript `String.prototype.trim`: strips leading and trailing
whitespace (an executable model; `String.trim` of the Lean library computes
the same string but does not reduce in the kernel). -/
def jsTrim (s : String) : String :=
  String.mk (((s.data.dropWhile Char.isWhitespace).reverse.dropWhile Char.isWhitespace).reverse)

/-- `handleSendMessage` (Editor.js lines 313-360), one turn of the
conversational edit loop.  The single `/modify-resume` round trip is
represented by the `outcome` argument; the request that was sent is
appended to `requests`. -/
def handleSendMessage (st : EditorState) (outcome : ModifyOutcome) : EditorState :=
  if jsTrim st.userPrompt = "" then st
  else
    let currentPrompt := st.userPrompt
    let newUserMessage : ChatMessage := { role := .user, content := currentPrompt }
    let updatedMessages := st.chatMessages ++ [newUserMessage]
    let conversationHistory := updatedMessages.map (fun msg => (msg.role, msg.content))
    let currentCode := currentCodeOf st
    let req : ModifyRequest :=
      { html_code := currentCode
        prompt := currentPrompt
        history := conversationHistory.drop (conversationHistory.length - 5)
        extracted_data := st.extractedContext }
    let st1 := { st with
      userPrompt := ""
      isModifying := true
      chatMessages := updatedMessages
      requests := st.requests ++ [req] }
    let st2 : EditorState :=
      match outcome with
      | .success newCode agentReply =>
        if newCode = currentCode then
          { st1 with chatMessages := st1.chatMessages ++
              [{ role := .ai, content := agentReply,
                 codeVersionId := some st.currentCodeVersionId }] }
        else
          let newVersionId := st.currentCodeVersionId + 1
          { st1 with
            codeHistory := st1.codeHistory ++ [{ id := newVersionId, code := newCode }]
            currentCodeVersionId := newVersionId
            htmlCode := newCode
            saveCalls := st1.saveCalls ++ [(newCode, newVersionId)]
            previewCalls := st1.previewCalls ++ [newCode]
            chatMessages := st1.chatMessages ++
              [{ role := .ai, content := agentReply, codeVersionId := some newVersionId }] }
      | .serviceRejected =>
        { st1 with chatMessages := st1.chatMessages ++
            [{ role := .ai, content := "Sorry, I couldn\x27t process that request." }] }
      | .transportError =>
        { st1 with chatMessages := st1.chatMessages ++
            [{ role := .ai, content := "Error contacting AI server." }] }
    { st2 with isModifying := false }

/-- `handleUndo` (Editor.js lines 253-265): look up the index of the current
version id; when it is positive, step back to the preceding entry, make its
snapshot current, and trigger one preview render and one save with that
entry.  `findIdx?` returning `none` plays the role of `findIndex`
returning `-1`. -/
def handleUndo (st : EditorState) : EditorState :=
  match st.codeHistory.findIdx? (fun item => item.id == st.currentCodeVersionId) with
  | some (j + 1) =>
    match st.codeHistory[j]? with
    | some prevVersion =>
      { st with
        htmlCode := prevVersion.code
        currentCodeVersionId := prevVersion.id
        previewCalls := st.previewCalls ++ [prevVersion.code]
        saveCalls := st.saveCalls ++ [(prevVersion.code, prevVersion.id)] }
    | none => st
  | _ => st

/-- A row of the `resumes` table as read by `fetchResumeData`; `title` and
`html_content` are nullable database columns. -/
structure ResumeRow where
  title : Option String
  html_content : Option String
  version : Nat
deriving DecidableEq

/-- JavaScript `a || d` for a nullable string: the default replaces `null` /
`undefined` and the empty string. -/
def jsOrElse : Option String → String → String
  | none, d => d
  | some s, d => if s = "" then d else s

/-- `fetchResumeData` (Editor.js lines 140-167): `none` is the error path
of the supabase select (nothing but the loading flag changes); on a row,
the title is loaded, and the history is bulk-initialized to the single
stored snapshot when `data.html_content && data.html_content.length > 50`. -/
def fetchResumeData (st : EditorState) (result : Option ResumeRow) : EditorState :=
  match result with
  | none => st
  | some data =>
    let st1 := { st with resumeTitle := jsOrElse data.title "Untitled Resume" }
    match data.html_content with
    | some content =>
      if content.length > 50 then
        { st1 with
          htmlCode := content
          codeHistory := [{ id := data.version, code := content }]
          currentCodeVersionId := data.version
          step := 2
          previewCalls := st1.previewCalls ++ [content] }
      else st1
    | none => st1

/-- The state touched by `updatePdfPreview`: the currently displayed blob
URL, the list of blob URLs that have been passed to
`URL.revokeObjectURL`, and the rendering flag. -/
structure PreviewState where
  pdfUrl : Option String
  revoked : List String
  isGeneratingPreview : Bool
  /-- the `html_content` body of each outbound `/preview-pdf-bytes` call -/
  renderRequests : List String
deriving DecidableEq

/-- `updatePdfPreview` (Editor.js lines 234-250).  `renderResult` is the
outcome of the one `/preview-pdf-bytes` call: `some blobUrl` for the blob
URL created from a successful response, `none` for a failure.  The
previously displayed URL is revoked before the request in either case; on
failure `pdfUrl` is left as it was. -/
def updatePdfPreview (st : PreviewState) (codeToRender : String)
    (renderResult : Option String) : PreviewState :=
  let revoked1 :=
    match st.pdfUrl with
    | some oldUrl => st.revoked ++ [oldUrl]
    | none => st.revoked
  let requests1 := st.renderRequests ++ [codeToRender]
  match renderResult with
  | some blobUrl =>
    { pdfUrl := some blobUrl
      revoked := revoked1
      isGeneratingPreview := false
      renderRequests := requests1 }
  | none =>
    { st with
      revoked := revoked1
      isGeneratingPreview := false
      renderRequests := requests1 }

/-- The field set written by one durable `resumes` update
(`saveResume`, Editor.js lines 200-206); `title` is only present when a
truthy `newTitle` was passed. -/
structure ResumeUpdate where
  html_content : String
  version : Nat
  title : Option String
deriving DecidableEq

/-- Observable effects of the persistence adapter: durable row writes that
actually happened, and the count of save failures that were caught and
logged. -/
structure PersistState where
  dbWrites : List ResumeUpdate
  saveErrors : Nat
deriving DecidableEq

/-- The guard `!id || id === 'new'` of `saveResume` (Editor.js line 195):
`none` models an absent route parameter and the empty string is falsy. -/
def isMissingOrNew : Option String → Bool
  | none => true
  | some s => s = "" || s = "new"

/-- `saveResume` (Editor.js lines 194-219): return immediately for a
missing or sentinel document id; otherwise attempt one row update, whose
failure (`dbError`) is caught and logged without surfacing. -/
def saveResume (docId : Option String) (ps : PersistState)
    (newHtml : String) (newVersion : Nat) (newTitle : Option String)
    (dbError : Bool) : PersistState :=
  if isMissingOrNew docId then ps
  else
    let updates : ResumeUpdate :=
      { html_content := newHtml
        version := newVersion
        title := match newTitle with
          | some t => if t = "" then none else some t
          | none => none }
    if dbError then { ps with saveErrors := ps.saveErrors + 1 }
    else { ps with dbWrites := ps.dbWrites ++ [updates] }

/-- Submitting a prompt: the textarea `onChange` stores the prompt in
`userPrompt`, then `handleSendMessage` runs one turn. -/
def sendMessage (st : EditorState) (prompt : String) (outcome : ModifyOutcome) :
    EditorState :=
  handleSendMessage { st with userPrompt := prompt } outcome

/-- A sequence of edit turns, each a (prompt, returned html, reply) triple
whose service call succeeds. -/
def runEdits : EditorState → List (String × String × String) → EditorState
  | st, [] => st
  | st, (p, c, r) :: rest => runEdits (sendMessage st p (ModifyOutcome.success c r)) rest

/-- Every turn of the trace is an accepted edit: a non-blank prompt and a
returned snapshot that differs from the snapshot current at that turn. -/
def allAccepted : EditorState → List (String × String × String) → Bool
  | _, [] => true
  | st, (p, c, r) :: rest =>
    jsTrim p != "" && c != currentCodeOf st &&
      allAccepted (sendMessage st p (ModifyOutcome.success c r)) rest

/-- The greeting chat message posted by `handleExtractAndGenerate`
(Editor.js line 299). -/
def greetingMessage : ChatMessage :=
  { role := .ai
    content := "I\x27ve generated your PDF resume! Review the preview on the right. What would you like to change?"
    codeVersionId := some 1 }

/-- The editor state right after a successful ingestion
(`handleExtractAndGenerate`, Editor.js lines 283-301) of a document whose
generated snapshot is "A": history holding the single entry with id 1 and
code "A", current version 1, one save and one preview already issued, and
the greeting chat message. -/
def ingestState : EditorState :=
  { step := 2
    htmlCode := "A"
    extractedContext := ""
    resumeTitle := "My Resume"
    chatMessages := [greetingMessage]
    userPrompt := ""
    codeHistory := [{ id := 1, code := "A" }]
    currentCodeVersionId := 1
    isModifying := false
    saveCalls := [("A", 1)]
    previewCalls := ["A"]
    requests := [] }

/-- The initial editor state of a session opened at `/editor/new` or before
any data is loaded: the `useState` initial values of the component
(step 1, empty document, empty history, current version id 1). -/
def freshState : EditorState :=
  { step := 1
    htmlCode := ""
    extractedContext := ""
    resumeTitle := "Untitled Resume"
    chatMessages := []
    userPrompt := ""
    codeHistory := []
    currentCodeVersionId := 1
    isModifying := false
    saveCalls := []
    previewCalls := []
    requests := [] }

/-- The post-ingestion state with the prompt "hi" typed into the textarea. -/
def promptedState : EditorState :=
  { ingestState with userPrompt := "hi" }

/-- The state after one accepted edit on `ingestState`: history ids 1 and 2,
current version 2. -/
def twoVersionState : EditorState :=
  sendMessage ingestState "p1" (ModifyOutcome.success "B" "r1")

/-- A stored snapshot longer than 50 characters. -/
def longHtml : String :=
  "<html><body><p>stored resume snapshot 0123456789 0123456789</p></body></html>"

/-- A stored `resumes` row with a non-trivial snapshot at version 4. -/
def sampleRow : ResumeRow :=
  { title := some "My Stored Resume", html_content := some longHtml, version := 4 }

/-- Claim C10: when the document identifier is absent or is the sentinel
"new", `saveResume` returns immediately: no durable-storage write is
performed and no error is surfaced, so edits of a session opened under the
identifier "new" are never persisted. -/
theorem save_skips_new_document (docId : Option String) (ps : PersistState)
    (newHtml : String) (newVersion : Nat) (newTitle : Option String) (dbError : Bool)
    (h : docId = none ∨ docId = some "new") :
    saveResume docId ps newHtml newVersion newTitle dbError = ps := by
  rcases h with h | h <;> subst h <;> simp [saveResume, isMissingOrNew]

theorem save_skips_new_document_witness :
    (some "new" = (none : Option String) ∨ some "new" = some "new") ∧
    saveResume (some "new") ⟨[], 0⟩ "H" 3 none false = ⟨[], 0⟩ :=
  ⟨Or.inr rfl, save_skips_new_document (some "new") ⟨[], 0⟩ "H" 3 none false (Or.inr rfl)⟩

/-- Claim C2, amended: when the PDF conversion call of `updatePdfPreview`
fails, the displayed `pdfUrl` is left unchanged (the display is not forced
blank) and the rendering flag is cleared so the session is not blocked; the
previously displayed blob URL, however, has already been revoked before the
request was issued (the claim wrongly states that the resource is not
released on failure). -/
theorem preview_failure_keeps_display (st : PreviewState) (codeToRender : String) :
    (updatePdfPreview st codeToRender none).pdfUrl = st.pdfUrl ∧
    (updatePdfPreview st codeToRender none).isGeneratingPreview = false ∧
    (updatePdfPreview st codeToRender none).revoked = st.revoked ++ st.pdfUrl.toList ∧
    (updatePdfPreview st codeToRender none).renderRequests = st.renderRequests ++ [codeToRender] := by
  obtain ⟨u, rv, g, rq⟩ := st
  cases u <;> simp [updatePdfPreview]

/-- Claim C2, counterexample: with a previous preview "blob:prev" displayed
and a failing conversion call, the previous preview resource has been
released (passed to `URL.revokeObjectURL`), contradicting the claim that on
failure the previous preview resource is not released. -/
theorem preview_failure_release_counterexample :
    (updatePdfPreview ⟨some "blob:prev", [], false, []⟩ "X" none).pdfUrl = some "blob:prev" ∧
    "blob:prev" ∈ (updatePdfPreview ⟨some "blob:prev", [], false, []⟩ "X" none).revoked := by
  constructor <;> decide

/-- Claim C9: resuming a stored document bulk-initializes the version
history if and only if the stored HTML passes the minimum-length heuristic
(length strictly greater than 50).  In that case the history becomes
exactly the single entry of the stored version id and snapshot, that entry
becomes current, the step moves to the editor, and exactly one preview
render is triggered; otherwise only the stored title is loaded and history,
preview calls and step are untouched. -/
theorem resume_bulk_init_iff (st : EditorState) (row : ResumeRow) :
    (∀ content, row.html_content = some content → content.length > 50 →
      fetchResumeData st (some row) = { st with
        resumeTitle := jsOrElse row.title "Untitled Resume"
        htmlCode := content
        codeHistory := [{ id := row.version, code := content }]
        currentCodeVersionId := row.version
        step := 2
        previewCalls := st.previewCalls ++ [content] }) ∧
    ((∀ content, row.html_content = some content → content.length ≤ 50) →
      fetchResumeData st (some row) =
        { st with resumeTitle := jsOrElse row.title "Untitled Resume" }) := by
  constructor
  · intro content hc hl
    obtain ⟨s1, s2, s3, s4, s5, s6, s7, s8, s9, s10, s11, s12⟩ := st
    simp [fetchResumeData, hc, hl]
  · intro hsmall
    obtain ⟨s1, s2, s3, s4, s5, s6, s7, s8, s9, s10, s11, s12⟩ := st
    cases hrow : row.html_content with
    | none => simp [fetchResumeData, hrow]
    | some content =>
      have hle := hsmall content hrow
      simp [fetchResumeData, hrow, Nat.not_lt.mpr hle]

theorem resume_bulk_init_iff_witness :
    sampleRow.html_content = some longHtml ∧ longHtml.length > 50 ∧
    fetchResumeData freshState (some sampleRow) = { freshState with
      resumeTitle := jsOrElse sampleRow.title "Untitled Resume"
      htmlCode := longHtml
      codeHistory := [{ id := sampleRow.version, code := longHtml }]
      currentCodeVersionId := sampleRow.version
      step := 2
      previewCalls := freshState.previewCalls ++ [longHtml] } :=
  ⟨rfl, by decide, (resume_bulk_init_iff freshState sampleRow).1 longHtml rfl (by decide)⟩

/-- Claim C5: when the current pointer is not at the first history entry,
`handleUndo` moves it to the immediately preceding entry, makes that
snapshot the current HTML, triggers one preview render from it and one
persistence save with exactly that (snapshot, version id) pair, leaving the
history sequence itself untouched; when the current pointer is at the first
entry, `handleUndo` changes nothing. -/
theorem undo_moves_to_previous_entry (st : EditorState) :
    (st.codeHistory.findIdx? (fun item => item.id == st.currentCodeVersionId) = some 0 →
      handleUndo st = st) ∧
    (∀ j prevVersion,
      st.codeHistory.findIdx? (fun item => item.id == st.currentCodeVersionId) = some (j + 1) →
      st.codeHistory[j]? = some prevVersion →
      handleUndo st = { st with
        htmlCode := prevVersion.code
        currentCodeVersionId := prevVersion.id
        previewCalls := st.previewCalls ++ [prevVersion.code]
        saveCalls := st.saveCalls ++ [(prevVersion.code, prevVersion.id)] }) := by
  constructor
  · intro h0
    simp [handleUndo, h0]
  · intro j prevVersion hidx hget
    simp [handleUndo, hidx, hget]

theorem undo_moves_to_previous_entry_witness :
    twoVersionState.codeHistory.findIdx?
      (fun item => item.id == twoVersionState.currentCodeVersionId) = some 1 ∧
    twoVersionState.codeHistory[0]? = some { id := 1, code := "A" } ∧
    handleUndo twoVersionState = { twoVersionState with
      htmlCode := "A"
      currentCodeVersionId := 1
      previewCalls := twoVersionState.previewCalls ++ ["A"]
      saveCalls := twoVersionState.saveCalls ++ [("A", 1)] } :=
  ⟨by decide, by decide,
    (undo_moves_to_previous_entry twoVersionState).2 0 ⟨1, "A"⟩ (by decide) (by decide)⟩

/-- Claim C3, counterexample: in the turn after ingestion the user-authored
chat message is created without any version id (`codeVersionId` is absent),
so it is false that every chat message created by a turn carries the
version id current immediately after the message was processed. -/
theorem chat_version_id_counterexample :
    ¬ (∀ m ∈ (sendMessage ingestState "make the font larger"
        (ModifyOutcome.success "B" "done")).chatMessages, m.codeVersionId ≠ none) := by
  decide

/-- Claim C3, amended: only the system-authored reply of a successful turn
carries a version id, and it is the one current immediately after the turn;
the user-authored message of every turn and the synthetic reply of a failed
turn carry no version id. -/
theorem chat_message_version_ids (st : EditorState) (hp : jsTrim st.userPrompt ≠ "") :
    (∀ c r, (handleSendMessage st (ModifyOutcome.success c r)).chatMessages =
      st.chatMessages ++ [{ role := Role.user, content := st.userPrompt },
        { role := Role.ai, content := r, codeVersionId := some (handleSendMessage st (ModifyOutcome.success c r)).currentCodeVersionId }]) ∧
    ((handleSendMessage st ModifyOutcome.serviceRejected).chatMessages =
      st.chatMessages ++ [{ role := Role.user, content := st.userPrompt },
        { role := Role.ai, content := "Sorry, I couldn\x27t process that request." }]) ∧
    ((handleSendMessage st ModifyOutcome.transportError).chatMessages =
      st.chatMessages ++ [{ role := Role.user, content := st.userPrompt },
        { role := Role.ai, content := "Error contacting AI server." }]) := by
  refine ⟨fun c r => ?_, ?_, ?_⟩
  · by_cases hc : c = currentCodeOf st <;> simp [handleSendMessage, hp, hc]
  · simp [handleSendMessage, hp]
  · simp [handleSendMessage, hp]

theorem chat_message_version_ids_witness :
    jsTrim promptedState.userPrompt ≠ "" ∧
    (handleSendMessage promptedState (ModifyOutcome.success "B" "done")).chatMessages =
      promptedState.chatMessages ++ [{ role := Role.user, content := promptedState.userPrompt },
        { role := Role.ai, content := "done", codeVersionId := some (handleSendMessage promptedState (ModifyOutcome.success "B" "done")).currentCodeVersionId }] :=
  ⟨by decide, (chat_message_version_ids promptedState (by decide)).1 "B" "done"⟩

/-- Claim C4: when the edit-service call of a turn fails at the transport
level or returns a response marked unsuccessful, a synthetic assistant-role
chat message is appended after the user message, while the current version
id, the version history, the current HTML, and the save and preview event
lists are all unchanged, and exactly one outbound request was issued (the
instruction is not retried). -/
theorem edit_failure_preserves_state (st : EditorState) (outcome : ModifyOutcome)
    (hp : jsTrim st.userPrompt ≠ "")
    (hfail : outcome = ModifyOutcome.transportError ∨ outcome = ModifyOutcome.serviceRejected) :
    (handleSendMessage st outcome).currentCodeVersionId = st.currentCodeVersionId ∧
    (handleSendMessage st outcome).codeHistory = st.codeHistory ∧
    (handleSendMessage st outcome).htmlCode = st.htmlCode ∧
    (handleSendMessage st outcome).saveCalls = st.saveCalls ∧
    (handleSendMessage st outcome).previewCalls = st.previewCalls ∧
    (∃ failMsg : ChatMessage, failMsg.role = Role.ai ∧ failMsg.codeVersionId = none ∧
      (handleSendMessage st outcome).chatMessages =
        st.chatMessages ++ [{ role := Role.user, content := st.userPrompt }, failMsg]) ∧
    (handleSendMessage st outcome).requests.length = st.requests.length + 1 := by
  rcases hfail with h | h <;> subst h
  · refine ⟨?_, ?_, ?_, ?_, ?_,
      ⟨{ role := Role.ai, content := "Error contacting AI server." }, rfl, rfl, ?_⟩, ?_⟩ <;>
      simp [handleSendMessage, hp]
  · refine ⟨?_, ?_, ?_, ?_, ?_,
      ⟨{ role := Role.ai, content := "Sorry, I couldn\x27t process that request." }, rfl, rfl, ?_⟩, ?_⟩ <;>
      simp [handleSendMessage, hp]

theorem edit_failure_preserves_state_witness :
    jsTrim promptedState.userPrompt ≠ "" ∧
    ((handleSendMessage promptedState ModifyOutcome.transportError).currentCodeVersionId = promptedState.currentCodeVersionId ∧
     (handleSendMessage promptedState ModifyOutcome.transportError).codeHistory = promptedState.codeHistory ∧
     (handleSendMessage promptedState ModifyOutcome.transportError).htmlCode = promptedState.htmlCode ∧
     (handleSendMessage promptedState ModifyOutcome.transportError).saveCalls = promptedState.saveCalls ∧
     (handleSendMessage promptedState ModifyOutcome.transportError).previewCalls = promptedState.previewCalls ∧
     (∃ failMsg : ChatMessage, failMsg.role = Role.ai ∧ failMsg.codeVersionId = none ∧
       (handleSendMessage promptedState ModifyOutcome.transportError).chatMessages =
         promptedState.chatMessages ++ [{ role := Role.user, content := promptedState.userPrompt }, failMsg]) ∧
     (handleSendMessage promptedState ModifyOutcome.transportError).requests.length = promptedState.requests.length + 1) :=
  ⟨by decide, edit_failure_preserves_state promptedState ModifyOutcome.transportError (by decide) (Or.inl rfl)⟩

/-- Claim C6: when the edit service succeeds but returns HTML exactly equal
to the current HTML, no version entry is appended, the current version id
is unchanged, no save and no preview are triggered by the turn, and the
reply text is still appended to the chat log carrying the unchanged current
version id. -/
theorem identical_html_no_new_version (st : EditorState) (c r : String)
    (hp : jsTrim st.userPrompt ≠ "") (hc : c = currentCodeOf st) :
    (handleSendMessage st (ModifyOutcome.success c r)).codeHistory = st.codeHistory ∧
    (handleSendMessage st (ModifyOutcome.success c r)).currentCodeVersionId = st.currentCodeVersionId ∧
    (handleSendMessage st (ModifyOutcome.success c r)).htmlCode = st.htmlCode ∧
    (handleSendMessage st (ModifyOutcome.success c r)).saveCalls = st.saveCalls ∧
    (handleSendMessage st (ModifyOutcome.success c r)).previewCalls = st.previewCalls ∧
    (handleSendMessage st (ModifyOutcome.success c r)).chatMessages =
      st.chatMessages ++ [{ role := Role.user, content := st.userPrompt },
        { role := Role.ai, content := r, codeVersionId := some st.currentCodeVersionId }] := by
  refine ⟨?_, ?_, ?_, ?_, ?_, ?_⟩ <;> simp [handleSendMessage, hp, hc]

theorem identical_html_no_new_version_witness :
    jsTrim promptedState.userPrompt ≠ "" ∧ "A" = currentCodeOf promptedState ∧
    ((handleSendMessage promptedState (ModifyOutcome.success "A" "noted")).codeHistory = promptedState.codeHistory ∧
     (handleSendMessage promptedState (ModifyOutcome.success "A" "noted")).currentCodeVersionId = promptedState.currentCodeVersionId ∧
     (handleSendMessage promptedState (ModifyOutcome.success "A" "noted")).htmlCode = promptedState.htmlCode ∧
     (handleSendMessage promptedState (ModifyOutcome.success "A" "noted")).saveCalls = promptedState.saveCalls ∧
     (handleSendMessage promptedState (ModifyOutcome.success "A" "noted")).previewCalls = promptedState.previewCalls ∧
     (handleSendMessage promptedState (ModifyOutcome.success "A" "noted")).chatMessages =
       promptedState.chatMessages ++ [{ role := Role.user, content := promptedState.userPrompt },
         { role := Role.ai, content := "noted", codeVersionId := some promptedState.currentCodeVersionId }]) :=
  ⟨by decide, by decide,
    identical_html_no_new_version promptedState "A" "noted" (by decide) (by decide)⟩

/-- Claim C7: for every accepted edit (the service returns HTML differing
from the current HTML), persistence save is invoked exactly once with
exactly the (html, version id) pair produced by the append — the new
snapshot and the newly assigned id, current id plus one — never the
pre-append snapshot or a stale id; the same pair also becomes the appended
history entry and the new current version. -/
theorem accepted_edit_saves_exact_pair (st : EditorState) (c r : String)
    (hp : jsTrim st.userPrompt ≠ "") (hc : c ≠ currentCodeOf st) :
    (handleSendMessage st (ModifyOutcome.success c r)).saveCalls =
      st.saveCalls ++ [(c, st.currentCodeVersionId + 1)] ∧
    (handleSendMessage st (ModifyOutcome.success c r)).codeHistory =
      st.codeHistory ++ [{ id := st.currentCodeVersionId + 1, code := c }] ∧
    (handleSendMessage st (ModifyOutcome.success c r)).currentCodeVersionId =
      st.currentCodeVersionId + 1 ∧
    (handleSendMessage st (ModifyOutcome.success c r)).previewCalls = st.previewCalls ++ [c] ∧
    (handleSendMessage st (ModifyOutcome.success c r)).htmlCode = c := by
  refine ⟨?_, ?_, ?_, ?_, ?_⟩ <;> simp [handleSendMessage, hp, hc]

theorem accepted_edit_saves_exact_pair_witness :
    jsTrim promptedState.userPrompt ≠ "" ∧ "B" ≠ currentCodeOf promptedState ∧
    ((handleSendMessage promptedState (ModifyOutcome.success "B" "done")).saveCalls =
       promptedState.saveCalls ++ [("B", promptedState.currentCodeVersionId + 1)] ∧
     (handleSendMessage promptedState (ModifyOutcome.success "B" "done")).codeHistory =
       promptedState.codeHistory ++ [{ id := promptedState.currentCodeVersionId + 1, code := "B" }] ∧
     (handleSendMessage promptedState (ModifyOutcome.success "B" "done")).currentCodeVersionId =
       promptedState.currentCodeVersionId + 1 ∧
     (handleSendMessage promptedState (ModifyOutcome.success "B" "done")).previewCalls =
       promptedState.previewCalls ++ ["B"] ∧
     (handleSendMessage promptedState (ModifyOutcome.success "B" "done")).htmlCode = "B") :=
  ⟨by decide, by decide,
    accepted_edit_saves_exact_pair promptedState "B" "done" (by decide) (by decide)⟩

/-- Claim C8: every edit-turn submission issues exactly one outbound
request whose history field is the suffix of the (role, content) pairs of
the conversation including the new user message, of length
min(5, total turns) — at most the 5 most recent turns, in order,
regardless of how long the conversation has grown. -/
theorem request_history_capped_at_five (st : EditorState) (outcome : ModifyOutcome)
    (hp : jsTrim st.userPrompt ≠ "") :
    ∃ req : ModifyRequest,
      (handleSendMessage st outcome).requests = st.requests ++ [req] ∧
      req.history.length ≤ 5 ∧
      req.history.length = min 5 (st.chatMessages.length + 1) ∧
      req.history.IsSuffix
        ((st.chatMessages ++ [({ role := Role.user, content := st.userPrompt } : ChatMessage)]).map
          (fun msg => (msg.role, msg.content))) := by
  refine ⟨{ html_code := currentCodeOf st
            prompt := st.userPrompt
            history := ((st.chatMessages ++ [({ role := Role.user, content := st.userPrompt } : ChatMessage)]).map
              (fun msg => (msg.role, msg.content))).drop
                (((st.chatMessages ++ [({ role := Role.user, content := st.userPrompt } : ChatMessage)]).map
                  (fun msg => (msg.role, msg.content))).length - 5)
            extracted_data := st.extractedContext }, ?_, ?_, ?_, ?_⟩
  · cases outcome with
    | transportError => simp [handleSendMessage, hp]
    | serviceRejected => simp [handleSendMessage, hp]
    | success c r => by_cases hc : c = currentCodeOf st <;> simp [handleSendMessage, hp, hc]
  · simp only [List.length_drop]
    omega
  · simp only [List.length_drop, List.length_map, List.length_append, List.length_cons,
      List.length_nil]
    omega
  · exact List.drop_suffix _ _

theorem request_history_capped_at_five_witness :
    jsTrim promptedState.userPrompt ≠ "" ∧
    (∃ req : ModifyRequest,
      (handleSendMessage promptedState ModifyOutcome.transportError).requests =
        promptedState.requests ++ [req] ∧
      req.history.length ≤ 5 ∧
      req.history.length = min 5 (promptedState.chatMessages.length + 1) ∧
      req.history.IsSuffix
        ((promptedState.chatMessages ++ [({ role := Role.user, content := promptedState.userPrompt } : ChatMessage)]).map
          (fun msg => (msg.role, msg.content)))) :=
  ⟨by decide, request_history_capped_at_five promptedState ModifyOutcome.transportError (by decide)⟩

/-- Accepted-edit step: with a non-blank prompt and a returned snapshot
that differs from the current one, a turn appends exactly one history entry
whose id is the current version id plus one, and that id becomes current. -/
lemma sendMessage_accepted_history (st : EditorState) (p c r : String)
    (hp : jsTrim p ≠ "") (hc : c ≠ currentCodeOf st) :
    (sendMessage st p (ModifyOutcome.success c r)).codeHistory =
      st.codeHistory ++ [{ id := st.currentCodeVersionId + 1, code := c }] ∧
    (sendMessage st p (ModifyOutcome.success c r)).currentCodeVersionId =
      st.currentCodeVersionId + 1 := by
  have hcur : currentCodeOf { st with userPrompt := p } = currentCodeOf st := rfl
  constructor <;> simp [sendMessage, handleSendMessage, hp, hcur, hc]

/-- Claim C1, amended: the edit loop assigns each appended entry the id
current version id plus one (equal to the maximal id plus one whenever no
undo has intervened); consequently, starting from a history whose ids are
exactly 1..n with version n current, any sequence of N accepted edits with
no undo leaves the store with exactly n+N entries whose ids are
1..n+N (strictly increasing, each id identifying exactly one snapshot);
with undo interleaved this fails, see the counterexample. -/
theorem edit_loop_version_ids (edits : List (String × String × String)) (st : EditorState) (n : Nat)
    (hids : st.codeHistory.map VersionEntry.id = List.range' 1 n)
    (hcur : st.currentCodeVersionId = n)
    (hacc : allAccepted st edits = true) :
    (runEdits st edits).codeHistory.map VersionEntry.id = List.range' 1 (n + edits.length) ∧
    (runEdits st edits).currentCodeVersionId = n + edits.length := by
  induction edits generalizing st n with
  | nil =>
    simp only [runEdits, List.length_nil, Nat.add_zero]
    exact ⟨hids, hcur⟩
  | cons e rest ih =>
    obtain ⟨p, c, r⟩ := e
    simp only [allAccepted, Bool.and_eq_true, bne_iff_ne, ne_eq] at hacc
    obtain ⟨⟨hp, hc⟩, hrest⟩ := hacc
    have hstep := sendMessage_accepted_history st p c r hp hc
    have hids2 : (sendMessage st p (ModifyOutcome.success c r)).codeHistory.map VersionEntry.id
        = List.range' 1 (n + 1) := by
      rw [hstep.1, List.map_append, hids, List.range'_1_concat]
      simp [hcur, Nat.add_comm]
    have hcur2 : (sendMessage st p (ModifyOutcome.success c r)).currentCodeVersionId = n + 1 := by
      rw [hstep.2, hcur]
    have hmain := ih (sendMessage st p (ModifyOutcome.success c r)) (n + 1) hids2 hcur2 hrest
    have harg : n + 1 + rest.length = n + (rest.length + 1) := by omega
    rw [harg] at hmain
    simpa [runEdits] using hmain

theorem edit_loop_version_ids_witness :
    ingestState.codeHistory.map VersionEntry.id = List.range' 1 1 ∧
    ingestState.currentCodeVersionId = 1 ∧
    allAccepted ingestState [("p1", "B", "r1"), ("p2", "C", "r2")] = true ∧
    ((runEdits ingestState [("p1", "B", "r1"), ("p2", "C", "r2")]).codeHistory.map VersionEntry.id =
      List.range' 1 3 ∧
     (runEdits ingestState [("p1", "B", "r1"), ("p2", "C", "r2")]).currentCodeVersionId = 3) :=
  ⟨by decide, rfl, by decide,
    edit_loop_version_ids [("p1", "B", "r1"), ("p2", "C", "r2")] ingestState 1
      (by decide) rfl (by decide)⟩

/-- One accepted edit, then undo, then another accepted edit, starting from
the post-ingestion state. -/
def undoEditTrace : EditorState :=
  sendMessage (handleUndo (sendMessage ingestState "p1" (ModifyOutcome.success "B" "r1")))
    "p2" (ModifyOutcome.success "C" "r2")

/-- Claim C1, counterexample: after the accepted edit, undo, accepted edit
sequence the history holds the ids 1, 2, 2 — not strictly increasing, and
the id 2 identifies two different snapshots — because the edit loop assigns
current pointer id plus one rather than maximal id plus one after an
undo. -/
theorem undo_edit_duplicate_ids :
    undoEditTrace.codeHistory =
      [{ id := 1, code := "A" }, { id := 2, code := "B" }, { id := 2, code := "C" }] ∧
    ¬ List.Pairwise (fun a b => a < b) (undoEditTrace.codeHistory.map VersionEntry.id) ∧
    ¬ (∀ e1 ∈ undoEditTrace.codeHistory, ∀ e2 ∈ undoEditTrace.codeHistory,
        e1.id = e2.id → e1.code = e2.code) := by
  refine ⟨by decide, by decide, by decide⟩
